import Mathlib

/-!
Verification development for the ATM simulator (`atm_sim_py.py`).

The Python program is shallowly embedded:
* `Message` mirrors the `Message` dataclass; float fields become `ℚ`
  (comparisons in the source are exact order comparisons on numbers).
* `validate` mirrors `validate` (lines 49-55).
* `TowerState`/`stepMsg`/`stepEvent`/`towerRun` mirror `ControlTower.run`
  (lines 126-152): each loop iteration reads the `running` event and the
  result of a timed pop (`none` = `asyncio.TimeoutError`, `some m` = a
  popped message).
* `AircraftState`/`tick`/`aircraft_run` mirror `aircraft_task`
  (lines 58-102); the RNG is abstracted as a stream of draws.
* `MainAction`/`mainTrace` linearize the await sequence of `main`
  (lines 155-197) as it executes on the single-threaded event loop.
-/

namespace AtmSim

/-- The `Message` dataclass (source lines 35-44). -/
structure Message where
  aircraft_id : Nat
  latitude : ℚ
  longitude : ℚ
  altitude_ft : ℚ
  speed_kt : ℚ
  heading_deg : ℚ
  status : String
  ts : String
deriving DecidableEq

/-- Embeds `validate` (source lines 49-55): five guarded range checks, each
returning `False` when its bound fails, else `True`. -/
def validate (m : Message) : Bool :=
  if ¬(-90 ≤ m.latitude ∧ m.latitude ≤ 90) then false
  else if ¬(-180 ≤ m.longitude ∧ m.longitude ≤ 180) then false
  else if ¬(0 ≤ m.altitude_ft ∧ m.altitude_ft ≤ 60000) then false
  else if ¬(0 ≤ m.speed_kt ∧ m.speed_kt ≤ 700) then false
  else if ¬(0 ≤ m.heading_deg ∧ m.heading_deg ≤ 360) then false
  else true

/-- C3: `validate` accepts a message iff latitude ∈ [-90,90],
longitude ∈ [-180,180], altitude ∈ [0,60000], speed ∈ [0,700] and
heading ∈ [0,360]; all bounds inclusive, so any single field strictly
outside its range forces rejection and every boundary value is accepted. -/
theorem validate_accepts_iff_in_bounds (m : Message) :
    validate m = true ↔
      (-90 ≤ m.latitude ∧ m.latitude ≤ 90) ∧
      (-180 ≤ m.longitude ∧ m.longitude ≤ 180) ∧
      (0 ≤ m.altitude_ft ∧ m.altitude_ft ≤ 60000) ∧
      (0 ≤ m.speed_kt ∧ m.speed_kt ≤ 700) ∧
      (0 ≤ m.heading_deg ∧ m.heading_deg ≤ 360) := by
  unfold validate
  split_ifs with h1 h2 h3 h4 h5 <;> simp_all

/-- C10: `validate` reads only the five numeric fields; two messages
agreeing on latitude, longitude, altitude, speed and heading get the same
verdict regardless of `aircraft_id`, `status` and `ts`. -/
theorem validate_depends_only_on_numeric_fields (m₁ m₂ : Message)
    (hlat : m₁.latitude = m₂.latitude)
    (hlon : m₁.longitude = m₂.longitude)
    (halt : m₁.altitude_ft = m₂.altitude_ft)
    (hspd : m₁.speed_kt = m₂.speed_kt)
    (hhdg : m₁.heading_deg = m₂.heading_deg) :
    validate m₁ = validate m₂ := by
  unfold validate
  rw [hlat, hlon, halt, hspd, hhdg]

/-- Witness for C10 at two concrete messages differing only in
`aircraft_id`, `status` and `ts`. -/
theorem validate_depends_only_on_numeric_fields_witness :
    validate ⟨1, 10, 20, 30000, 400, 90, "OK", "t1"⟩ =
      validate ⟨2, 10, 20, 30000, 400, 90, "WARN", "t2"⟩ :=
  validate_depends_only_on_numeric_fields _ _ rfl rfl rfl rfl rfl

/-- State of `ControlTower` (source lines 106-113): the three
counters, whether a CSV writer was installed (`csv_path` given), and the
rows written so far (message plus `valid` flag, lines 147-150). -/
structure TowerState where
  processed : Nat
  rejected : Nat
  byes : Nat
  hasWriter : Bool
  log : List (Message × Bool)
deriving DecidableEq

/-- Body of one `ControlTower.run` iteration on a popped message
(source lines 133-150): a `"BYE"` bumps `byes` and continues; otherwise
the message is validated, one counter bumped, and a row appended when a
writer is present. -/
def stepMsg (s : TowerState) (m : Message) : TowerState :=
  if m.status = "BYE" then { s with byes := s.byes + 1 }
  else
    let is_valid := validate m
    let s1 :=
      if is_valid then { s with processed := s.processed + 1 }
      else { s with rejected := s.rejected + 1 }
    if s1.hasWriter then { s1 with log := s1.log ++ [(m, is_valid)] } else s1

/-- One iteration's effect: `none` is a pop timeout
(`asyncio.TimeoutError`, lines 128-131, `continue`), `some m` a popped
message handled by `stepMsg`. -/
def stepEvent (s : TowerState) : Option Message → TowerState
  | none => s
  | some m => stepMsg s m

/-- The `ControlTower.run` while loop (lines 126-151) over a finite trace
of iterations. Each trace element carries the value `running.is_set()`
read at the loop condition and the outcome of the timed pop. The loop
exits when the condition `running.is_set() or self.byes < num_aircraft`
is false, returning the `running` reading at that check, the state, and
the unconsumed iteration inputs (starting with the exit-check element,
whose pop never happened); `none` means the trace ended with the loop
still running. -/
def towerRun (P : Nat) :
    TowerState → List (Bool × Option Message) →
      Option (Bool × TowerState × List (Bool × Option Message))
  | _, [] => none
  | s, (r, ev) :: rest =>
      if r = true ∨ s.byes < P then towerRun P (stepEvent s ev) rest
      else some (r, s, (r, ev) :: rest)

/-- An iteration that popped a `"BYE"` message. -/
def isByeEvent : Bool × Option Message → Bool
  | (_, some m) => m.status == "BYE"
  | (_, none) => false

/-- An iteration that popped a data (non-`"BYE"`) message. -/
def isDataEvent : Bool × Option Message → Bool
  | (_, some m) => !(m.status == "BYE")
  | (_, none) => false

/-- An iteration that popped an `"OK"` or `"WARN"` message. -/
def isOkWarnEvent : Bool × Option Message → Bool
  | (_, some m) => m.status == "OK" || m.status == "WARN"
  | (_, none) => false

/-- The producer id of a popped message (0 for a timeout). -/
def eventProducer : Bool × Option Message → Nat
  | (_, some m) => m.aircraft_id
  | (_, none) => 0

/-- An iteration that popped producer `i`'s `"BYE"` message. -/
def isByeEventFrom (i : Nat) (e : Bool × Option Message) : Bool :=
  isByeEvent e && (eventProducer e == i)

/-- C8: a pop timeout changes nothing — the iteration leaves all three
counters and the log exactly as they were, and the loop retries. -/
theorem pop_timeout_is_noop (s : TowerState) : stepEvent s none = s := rfl

/-- C7: popping a `"BYE"` message increments only `byes`: `processed`,
`rejected`, the log and the writer flag are untouched, and no row is
appended (in particular the message is never validated into a row). -/
theorem bye_increments_only_byes (s : TowerState) (m : Message)
    (h : m.status = "BYE") :
    stepMsg s m =
      { processed := s.processed, rejected := s.rejected,
        byes := s.byes + 1, hasWriter := s.hasWriter, log := s.log } := by
  simp [stepMsg, h]

/-- Witness for C7 at a concrete `"BYE"` message and tower state. -/
theorem bye_increments_only_byes_witness :
    stepMsg ⟨3, 4, 1, true, []⟩ ⟨2, 0, 0, 0, 0, 0, "BYE", "t"⟩ =
      { processed := 3, rejected := 4, byes := 2, hasWriter := true,
        log := ([] : List (Message × Bool)) } :=
  bye_increments_only_byes ⟨3, 4, 1, true, []⟩ ⟨2, 0, 0, 0, 0, 0, "BYE", "t"⟩ rfl

/-- Effect of one iteration on `byes`. -/
theorem stepEvent_byes (s : TowerState) (r : Bool) (ev : Option Message) :
    (stepEvent s ev).byes = s.byes + (if isByeEvent (r, ev) then 1 else 0) := by
  cases ev with
  | none => simp [stepEvent, isByeEvent]
  | some m =>
    by_cases h : m.status = "BYE"
    · simp [stepEvent, stepMsg, isByeEvent, h]
    · simp only [stepEvent, stepMsg, if_neg h, isByeEvent]
      split_ifs <;> simp_all [beq_iff_eq]

/-- Effect of one iteration on `processed + rejected`. -/
theorem stepEvent_counters (s : TowerState) (r : Bool) (ev : Option Message) :
    (stepEvent s ev).processed + (stepEvent s ev).rejected =
      s.processed + s.rejected + (if isDataEvent (r, ev) then 1 else 0) := by
  cases ev with
  | none => simp [stepEvent, isDataEvent]
  | some m =>
    by_cases h : m.status = "BYE"
    · simp [stepEvent, stepMsg, isDataEvent, h]
    · simp only [stepEvent, stepMsg, if_neg h, isDataEvent]
      split_ifs <;> simp_all [beq_iff_eq] <;> omega

/-- Structure of any exiting run of the consumer loop: the consumed
prefix `pre` determines the final counters, the `running` reading at the
exit check is `false`, and `byes` has reached `P`. -/
theorem towerRun_exits_spec (P : Nat) :
    ∀ (t : List (Bool × Option Message)) (s : TowerState) (r : Bool)
      (s' : TowerState) (rest : List (Bool × Option Message)),
      towerRun P s t = some (r, s', rest) →
      ∃ pre, t = pre ++ rest ∧
        s'.byes = s.byes + pre.countP isByeEvent ∧
        s'.processed + s'.rejected =
          s.processed + s.rejected + pre.countP isDataEvent ∧
        r = false ∧ P ≤ s'.byes := by
  intro t
  induction t with
  | nil => intro s r s' rest h; simp [towerRun] at h
  | cons e t ih =>
    intro s r s' rest h
    obtain ⟨rb, ev⟩ := e
    by_cases hc : rb = true ∨ s.byes < P
    · rw [towerRun, if_pos hc] at h
      obtain ⟨pre, hsplit, hbyes, hcnt, hr, hP⟩ :=
        ih (stepEvent s ev) r s' rest h
      refine ⟨(rb, ev) :: pre, by simp [hsplit], ?_, ?_, hr, hP⟩
      · rw [hbyes, List.countP_cons, stepEvent_byes s rb ev]
        by_cases hb : isByeEvent (rb, ev) <;> simp [hb] <;> omega
      · rw [hcnt, List.countP_cons, stepEvent_counters s rb ev]
        by_cases hd : isDataEvent (rb, ev) <;> simp [hd] <;> omega
    · rw [towerRun, if_neg hc] at h
      push_neg at hc
      obtain ⟨hc1, hc2⟩ := hc
      simp only [Option.some.injEq, Prod.mk.injEq] at h
      obtain ⟨rfl, rfl, rfl⟩ := h
      exact ⟨[], by simp, by simp, by simp, by simpa using hc1, hc2⟩


/-- C1: if the consumer's draining loop exits, the `running` event read
at the final condition check is cleared (stop asserted) and, provided at
most `P` `"BYE"` messages are popped (each of the `P` producers sends
one), `byes` equals `P` exactly; the loop can never exit while the stop
signal is unasserted or while `byes < P`. -/
theorem drain_exit_condition (P : Nat) (t : List (Bool × Option Message))
    (s₀ : TowerState) (r : Bool) (s' : TowerState)
    (rest : List (Bool × Option Message))
    (h : towerRun P s₀ t = some (r, s', rest))
    (h0 : s₀.byes = 0)
    (hP : t.countP isByeEvent ≤ P) :
    r = false ∧ s'.byes = P := by
  obtain ⟨pre, hsplit, hbyes, -, hr, hge⟩ :=
    towerRun_exits_spec P t s₀ r s' rest h
  refine ⟨hr, ?_⟩
  have hcount : pre.countP isByeEvent ≤ t.countP isByeEvent := by
    rw [hsplit, List.countP_append]; omega
  omega

/-- A concrete in-range `"OK"` message from producer 1. -/
def okMsg1 : Message := ⟨1, 10, 20, 30000, 400, 90, "OK", "t0"⟩

/-- A concrete `"BYE"` message from producer 1. -/
def byeMsg1 : Message := ⟨1, 0, 0, 0, 0, 0, "BYE", "t1"⟩

/-- A concrete single-producer consumer trace: one data pop while
running, the producer's `"BYE"` after the stop, then the exit check. -/
def witTrace1 : List (Bool × Option Message) :=
  [(true, some okMsg1), (false, some byeMsg1), (false, none)]

/-- The tower state `ControlTower.__init__` sets up (with a writer). -/
def initTower : TowerState := ⟨0, 0, 0, true, []⟩

/-- The tower state after consuming `witTrace1`. -/
def witTower1 : TowerState := ⟨1, 0, 1, true, [(okMsg1, true)]⟩

/-- Witness for C1: one producer, a trace popping one data message, that
producer's `"BYE"`, then an exit check with the stop signal asserted. -/
theorem drain_exit_condition_witness :
    towerRun 1 initTower witTrace1 = some (false, witTower1, [(false, none)]) ∧
    (false = false ∧ witTower1.byes = 1) :=
  ⟨by decide,
    drain_exit_condition 1 witTrace1 initTower false witTower1 [(false, none)]
      (by decide) (by decide) (by decide)⟩

/-- An `"OK"`/`"WARN"` pop is a data pop (its status is not `"BYE"`). -/
theorem isOkWarnEvent_isDataEvent (e : Bool × Option Message)
    (h : isOkWarnEvent e = true) : isDataEvent e = true := by
  obtain ⟨r, ev⟩ := e
  cases ev with
  | none => simpa [isOkWarnEvent] using h
  | some m =>
    simp only [isOkWarnEvent, Bool.or_eq_true, beq_iff_eq] at h
    simp only [isDataEvent, Bool.not_eq_true', beq_eq_false_iff_ne, ne_eq]
    rcases h with h | h <;> simp [h]

/-- C2: if the consumer's loop exits on a trace in which every data
message is followed later by its own producer's `"BYE"` (per-producer
FIFO: a producer pushes all its data before its sentinel), exactly `P`
`"BYE"` pops occur in total, and every popped message has status `"OK"`,
`"WARN"` or `"BYE"`, then no in-flight message is lost: on exit,
`processed + rejected` equals the total number of `"OK"`/`"WARN"`
messages in the trace and `byes = P`. -/
theorem drain_no_message_lost (P : Nat) (t : List (Bool × Option Message))
    (s₀ : TowerState) (r : Bool) (s' : TowerState)
    (leftover : List (Bool × Option Message))
    (h : towerRun P s₀ t = some (r, s', leftover))
    (h0 : s₀.processed = 0) (h1 : s₀.rejected = 0) (h2 : s₀.byes = 0)
    (hP : t.countP isByeEvent = P)
    (hstat : ∀ e ∈ t, isDataEvent e = true → isOkWarnEvent e = true)
    (horder : ∀ i : Fin t.length, isDataEvent (t.get i) = true →
      0 < (t.drop (i.1 + 1)).countP
        (isByeEventFrom (eventProducer (t.get i)))) :
    s'.processed + s'.rejected = t.countP isOkWarnEvent ∧ s'.byes = P := by
  obtain ⟨pre, hsplit, hbyes, hcnt, hr, hge⟩ :=
    towerRun_exits_spec P t s₀ r s' leftover h
  subst hsplit
  have happB : (pre ++ leftover).countP isByeEvent =
      pre.countP isByeEvent + leftover.countP isByeEvent :=
    List.countP_append _ _ _
  have hleft0 : leftover.countP isByeEvent = 0 := by omega
  have hlen : (pre ++ leftover).length = pre.length + leftover.length :=
    List.length_append _ _
  have hnodata : ∀ e ∈ leftover, ¬ isDataEvent e = true := by
    intro e he hd
    obtain ⟨k, hk, hek⟩ := List.mem_iff_getElem.mp he
    have hik : pre.length + k < (pre ++ leftover).length := by omega
    have htk : (pre ++ leftover).get ⟨pre.length + k, hik⟩ = e := by
      have h1 : (pre ++ leftover).get ⟨pre.length + k, hik⟩ =
          (pre ++ leftover)[pre.length + k] := rfl
      rw [h1, List.getElem_append_right (Nat.le_add_right _ _)]
      simpa [Nat.add_sub_cancel_left] using hek
    have hbye := horder ⟨pre.length + k, hik⟩ (by rw [htk]; exact hd)
    rw [htk] at hbye
    have hdrop : (pre ++ leftover).drop (pre.length + k + 1) =
        leftover.drop (k + 1) := by
      have harith : pre.length + k + 1 = pre.length + (k + 1) := by omega
      rw [harith, List.drop_append]
    rw [hdrop] at hbye
    obtain ⟨e', he', hbe'⟩ := List.countP_pos.mp hbye
    have he'mem : e' ∈ leftover := List.mem_of_mem_drop he'
    have : isByeEvent e' = true := by
      simp only [isByeEventFrom, Bool.and_eq_true] at hbe'
      exact hbe'.1
    have : 0 < leftover.countP isByeEvent :=
      List.countP_pos.mpr ⟨e', he'mem, this⟩
    omega
  have hleftD : leftover.countP isDataEvent = 0 :=
    List.countP_eq_zero.mpr hnodata
  have happD : (pre ++ leftover).countP isDataEvent =
      pre.countP isDataEvent + leftover.countP isDataEvent :=
    List.countP_append _ _ _
  have hDeqOW : (pre ++ leftover).countP isDataEvent =
      (pre ++ leftover).countP isOkWarnEvent := by
    refine List.countP_congr ?_
    intro e he
    exact ⟨hstat e he, isOkWarnEvent_isDataEvent e⟩
  constructor
  · omega
  · omega

/-- Witness for C2 on the concrete single-producer trace `witTrace1`. -/
theorem drain_no_message_lost_witness :
    towerRun 1 initTower witTrace1 =
        some (false, witTower1, [(false, none)]) ∧
    witTrace1.countP isByeEvent = 1 ∧
    (∀ e ∈ witTrace1, isDataEvent e = true → isOkWarnEvent e = true) ∧
    (∀ i : Fin witTrace1.length, isDataEvent (witTrace1.get i) = true →
      0 < (witTrace1.drop (i.1 + 1)).countP
        (isByeEventFrom (eventProducer (witTrace1.get i)))) ∧
    (witTower1.processed + witTower1.rejected =
        witTrace1.countP isOkWarnEvent ∧ witTower1.byes = 1) :=
  ⟨by decide, by decide, by decide, by decide,
    drain_no_message_lost 1 witTrace1 initTower false witTower1
      [(false, none)] (by decide) (by decide) (by decide) (by decide)
      (by decide) (by decide) (by decide)⟩

/-- Private per-producer trajectory state (source lines 61-65: the local
variables `lat`, `lon`, `alt`, `spd`, `hdg` of `aircraft_task`). -/
structure AircraftState where
  lat : ℚ
  lon : ℚ
  alt : ℚ
  spd : ℚ
  hdg : ℚ
deriving DecidableEq

/-- The random draws one loop iteration of `aircraft_task` consumes:
five `rng.uniform` perturbations (lines 69-75) and the `rng.random()`
value deciding `WARN` (line 79). -/
structure Draw where
  dLat : ℚ
  dLon : ℚ
  dAlt : ℚ
  dSpd : ℚ
  dHdg : ℚ
  warn : ℚ
deriving DecidableEq

/-- The ranges `random.uniform`/`random.random` guarantee for the draws
requested at lines 69-75 and 79. -/
def drawInRange (d : Draw) : Prop :=
  (-(1/20) ≤ d.dLat ∧ d.dLat ≤ 1/20) ∧ (-(1/20) ≤ d.dLon ∧ d.dLon ≤ 1/20) ∧
    (-400 ≤ d.dAlt ∧ d.dAlt ≤ 400) ∧ (-10 ≤ d.dSpd ∧ d.dSpd ≤ 10) ∧
    (-5 ≤ d.dHdg ∧ d.dHdg ≤ 5) ∧ (0 ≤ d.warn ∧ d.warn ≤ 1)

instance (d : Draw) : Decidable (drawInRange d) := by
  unfold drawInRange; infer_instance

/-- Python's float modulo: `x % n = x - n * floor(x / n)`, which lies in
`[0, n)` for positive `n` (used at line 75 as `% 360`). -/
def pymod (x n : ℚ) : ℚ := x - n * ⌊x / n⌋

/-- One state update of `aircraft_task`'s loop body (lines 69-75):
unclamped position walk, altitude and speed clamped via `max`/`min`,
heading wrapped by `% 360`. -/
def tick (s : AircraftState) (d : Draw) : AircraftState :=
  { lat := s.lat + d.dLat
    lon := s.lon + d.dLon
    alt := max 0 (min (s.alt + d.dAlt) 60000)
    spd := max 0 (min (s.spd + d.dSpd) 700)
    hdg := pymod (s.hdg + d.dHdg) 360 }

/-- Status selection (lines 78-80): `"WARN"` when `rng.random() < 0.02`,
else `"OK"`. -/
def tickStatus (d : Draw) : String := if d.warn < 1/50 then "WARN" else "OK"

/-- The data message assembled at lines 82-91 from the updated state. -/
def mkDataMessage (id : Nat) (s : AircraftState) (st t : String) : Message :=
  ⟨id, s.lat, s.lon, s.alt, s.spd, s.hdg, st, t⟩

/-- The final `"BYE"` message (lines 98-102): all numeric fields zero. -/
def byeMessage (id : Nat) (t : String) : Message :=
  ⟨id, 0, 0, 0, 0, 0, "BYE", t⟩

/-- The data messages `aircraft_task` pushes over `n` loop iterations,
threading the trajectory state and consuming one draw and one timestamp
per tick. -/
def dataMessages (id : Nat) :
    AircraftState → (Nat → Draw) → (Nat → String) → Nat → List Message
  | _, _, _, 0 => []
  | s, draws, ts, n + 1 =>
      mkDataMessage id (tick s (draws 0)) (tickStatus (draws 0)) (ts 0) ::
        dataMessages id (tick s (draws 0))
          (fun k => draws (k + 1)) (fun k => ts (k + 1)) n

/-- Everything one `aircraft_task` pushes to the queue in a run whose
`running` event stays set for `n` iterations: `n` data messages
(lines 67-95), then the single final `"BYE"` (lines 97-102). -/
def aircraft_run (id : Nat) (s : AircraftState) (draws : Nat → Draw)
    (ts : Nat → String) (n : Nat) : List Message :=
  dataMessages id s draws ts n ++ [byeMessage id (ts n)]

/-- A tick's status is never `"BYE"`. -/
theorem tickStatus_ne_bye (d : Draw) : tickStatus d ≠ "BYE" := by
  unfold tickStatus
  split_ifs <;> simp

/-- No data message carries status `"BYE"`. -/
theorem dataMessages_no_bye (id : Nat) :
    ∀ (n : Nat) (s : AircraftState) (draws : Nat → Draw)
      (ts : Nat → String),
      (dataMessages id s draws ts n).countP
        (fun m => m.status == "BYE") = 0 := by
  intro n
  induction n with
  | zero => intro s draws ts; simp [dataMessages]
  | succ n ih =>
    intro s draws ts
    rw [dataMessages, List.countP_cons]
    have hne := tickStatus_ne_bye (draws 0)
    simp [mkDataMessage, ih, hne]

/-- C4: each producer run emits exactly one `"BYE"`-status message, it
is the last message pushed (strictly after all the producer's data
messages), and its latitude, longitude, altitude, speed and heading are
all zero. -/
theorem producer_emits_one_final_bye (id : Nat) (s : AircraftState)
    (draws : Nat → Draw) (ts : Nat → String) (n : Nat) :
    (aircraft_run id s draws ts n).countP
        (fun m => m.status == "BYE") = 1 ∧
    (aircraft_run id s draws ts n).getLast? =
        some ⟨id, 0, 0, 0, 0, 0, "BYE", ts n⟩ := by
  constructor
  · rw [aircraft_run, List.countP_append, dataMessages_no_bye]
    simp [byeMessage]
  · rw [aircraft_run, List.getLast?_concat]
    rfl

/-- Rewriting `pymod x 360` through the fractional part of `x / 360`. -/
theorem pymod_eq_fract (x : ℚ) : pymod x 360 = 360 * Int.fract (x / 360) := by
  unfold pymod Int.fract
  ring

/-- Python's `% 360` never goes negative. -/
theorem pymod_nonneg (x : ℚ) : 0 ≤ pymod x 360 := by
  rw [pymod_eq_fract]
  have h := Int.fract_nonneg (x / 360)
  linarith

/-- Python's `% 360` stays strictly below 360. -/
theorem pymod_lt_360 (x : ℚ) : pymod x 360 < 360 := by
  rw [pymod_eq_fract]
  have h := Int.fract_lt_one (x / 360)
  linarith

/-- Every data message a producer emits has its altitude in [0,60000],
its speed in [0,700] and its heading in [0,360): they carry exactly the
clamped per-tick state. -/
theorem dataMessages_ranges (id : Nat) :
    ∀ (n : Nat) (s : AircraftState) (draws : Nat → Draw)
      (ts : Nat → String), ∀ m ∈ dataMessages id s draws ts n,
      (0 ≤ m.altitude_ft ∧ m.altitude_ft ≤ 60000) ∧
      (0 ≤ m.speed_kt ∧ m.speed_kt ≤ 700) ∧
      (0 ≤ m.heading_deg ∧ m.heading_deg < 360) := by
  intro n
  induction n with
  | zero => intro s draws ts m hm; simp [dataMessages] at hm
  | succ n ih =>
    intro s draws ts m hm
    rw [dataMessages] at hm
    rcases List.mem_cons.mp hm with h | h
    · subst h
      exact ⟨⟨le_max_left _ _, max_le (by norm_num) (min_le_right _ _)⟩,
        ⟨le_max_left _ _, max_le (by norm_num) (min_le_right _ _)⟩,
        pymod_nonneg _, pymod_lt_360 _⟩
    · exact ih _ _ _ m h

/-- C9: given draws within the requested `random.uniform` ranges, the
pre-clamp per-tick perturbation is bounded by ±0.05° in position,
±400 ft in altitude, ±10 kt in speed and ±5° in heading; after the
update the altitude is clamped into [0,60000], the speed into [0,700]
and the heading wrapped into [0,360); and every emitted data message
carries exactly these clamped state values, hence lies in those ranges. -/
theorem producer_tick_bounded_and_clamped (s : AircraftState) (d : Draw)
    (hd : drawInRange d) (id : Nat) (st t : String) (s0 : AircraftState)
    (draws : Nat → Draw) (ts : Nat → String) (n : Nat) :
    |(tick s d).lat - s.lat| ≤ 1/20 ∧
    |(tick s d).lon - s.lon| ≤ 1/20 ∧
    |s.alt + d.dAlt - s.alt| ≤ 400 ∧
    |s.spd + d.dSpd - s.spd| ≤ 10 ∧
    |d.dHdg| ≤ 5 ∧
    (0 ≤ (tick s d).alt ∧ (tick s d).alt ≤ 60000) ∧
    (0 ≤ (tick s d).spd ∧ (tick s d).spd ≤ 700) ∧
    (0 ≤ (tick s d).hdg ∧ (tick s d).hdg < 360) ∧
    mkDataMessage id (tick s d) st t =
      ⟨id, (tick s d).lat, (tick s d).lon, (tick s d).alt, (tick s d).spd,
        (tick s d).hdg, st, t⟩ ∧
    (∀ m ∈ dataMessages id s0 draws ts n,
      (0 ≤ m.altitude_ft ∧ m.altitude_ft ≤ 60000) ∧
      (0 ≤ m.speed_kt ∧ m.speed_kt ≤ 700) ∧
      (0 ≤ m.heading_deg ∧ m.heading_deg < 360)) := by
  obtain ⟨h1, h2, h3, h4, h5, h6⟩ := hd
  refine ⟨?_, ?_, ?_, ?_, abs_le.mpr h5, ?_, ?_, ?_, rfl,
    dataMessages_ranges id n s0 draws ts⟩
  · have : (tick s d).lat - s.lat = d.dLat := by simp [tick]
    rw [this]; exact abs_le.mpr h1
  · have : (tick s d).lon - s.lon = d.dLon := by simp [tick]
    rw [this]; exact abs_le.mpr h2
  · have : s.alt + d.dAlt - s.alt = d.dAlt := by ring
    rw [this]; exact abs_le.mpr h3
  · have : s.spd + d.dSpd - s.spd = d.dSpd := by ring
    rw [this]; exact abs_le.mpr h4
  · exact ⟨le_max_left _ _, max_le (by norm_num) (min_le_right _ _)⟩
  · exact ⟨le_max_left _ _, max_le (by norm_num) (min_le_right _ _)⟩
  · exact ⟨pymod_nonneg _, pymod_lt_360 _⟩

/-- A concrete draw with all perturbations zero and `random() = 1`. -/
def zeroDraw : Draw := ⟨0, 0, 0, 0, 0, 1⟩

/-- A concrete trajectory state. -/
def witState : AircraftState := ⟨10, 20, 30000, 400, 90⟩

/-- Witness for C9 at a concrete in-range draw and state. -/
theorem producer_tick_bounded_and_clamped_witness :
    drawInRange zeroDraw ∧
    (|(tick witState zeroDraw).lat - witState.lat| ≤ 1/20 ∧
     |(tick witState zeroDraw).lon - witState.lon| ≤ 1/20 ∧
     |witState.alt + zeroDraw.dAlt - witState.alt| ≤ 400 ∧
     |witState.spd + zeroDraw.dSpd - witState.spd| ≤ 10 ∧
     |zeroDraw.dHdg| ≤ 5 ∧
     (0 ≤ (tick witState zeroDraw).alt ∧
       (tick witState zeroDraw).alt ≤ 60000) ∧
     (0 ≤ (tick witState zeroDraw).spd ∧
       (tick witState zeroDraw).spd ≤ 700) ∧
     (0 ≤ (tick witState zeroDraw).hdg ∧
       (tick witState zeroDraw).hdg < 360) ∧
     mkDataMessage 1 (tick witState zeroDraw) "OK" "t0" =
       ⟨1, (tick witState zeroDraw).lat, (tick witState zeroDraw).lon,
         (tick witState zeroDraw).alt, (tick witState zeroDraw).spd,
         (tick witState zeroDraw).hdg, "OK", "t0"⟩ ∧
     (∀ m ∈ dataMessages 1 witState (fun _ => zeroDraw) (fun _ => "t") 1,
       (0 ≤ m.altitude_ft ∧ m.altitude_ft ≤ 60000) ∧
       (0 ≤ m.speed_kt ∧ m.speed_kt ≤ 700) ∧
       (0 ≤ m.heading_deg ∧ m.heading_deg < 360))) :=
  ⟨by simp [drawInRange, zeroDraw],
    producer_tick_bounded_and_clamped witState zeroDraw
      (by simp [drawInRange, zeroDraw]) 1 "OK" "t0" witState
      (fun _ => zeroDraw) (fun _ => "t") 1⟩

/-- The observable steps of `main` (source lines 155-197) in the order
the single-threaded event loop executes them. -/
inductive MainAction where
  | spawnProducer (i : Nat)
  | acquireLog
  | sleepRuntime
  | assertStop
  | runConsumerDrain
  | releaseLog
  | joinProducers
  | abortRun
deriving DecidableEq

/-- Value of `CONFIG.NUM_AIRCRAFT` (source line 27). -/
def NUM_AIRCRAFT : Nat := 5

/-- Linearization of `main`: the producer tasks are created first
(lines 179-182), then `async with ControlTower` opens the log
(line 185 with `__aenter__`, lines 115-119), then `main` sleeps for
`RUNTIME_SECONDS` (line 189), and only in the `finally` block does it
clear the stop event (line 192) and then run the consumer's draining
loop in the foreground (line 193), before closing the log (`__aexit__`)
and joining the producers (line 196). If `open` raises in `__aenter__`
(`openFails`), the run aborts right there — after the producer tasks
were already created and before any sleep or draining. -/
def mainTrace (numAircraft : Nat) (openFails : Bool) : List MainAction :=
  ((List.range numAircraft).map (fun i => MainAction.spawnProducer (i + 1))) ++
    if openFails then [MainAction.abortRun]
    else
      [MainAction.acquireLog, MainAction.sleepRuntime,
        MainAction.assertStop, MainAction.runConsumerDrain,
        MainAction.releaseLog, MainAction.joinProducers]

/-- C5 counterexample: in `main`, the consumer's draining loop does NOT
start before the runtime sleep — `tower.run` is awaited only after
`asyncio.sleep(RUNTIME_SECONDS)` returns, so draining is not concurrent
with the producers during the runtime window. -/
theorem main_drain_not_started_before_sleep :
    ¬ ((mainTrace NUM_AIRCRAFT false).indexOf MainAction.runConsumerDrain <
        (mainTrace NUM_AIRCRAFT false).indexOf MainAction.sleepRuntime) := by
  decide

/-- C5 (amended): `main` acquires the log, then sleeps the runtime
window, then asserts the stop signal, and only after that runs the
consumer's draining loop (in the foreground); draining happens only
after the stop signal is asserted. -/
theorem main_order_acquire_sleep_stop_drain :
    (mainTrace NUM_AIRCRAFT false).indexOf MainAction.acquireLog <
        (mainTrace NUM_AIRCRAFT false).indexOf MainAction.sleepRuntime ∧
    (mainTrace NUM_AIRCRAFT false).indexOf MainAction.sleepRuntime <
        (mainTrace NUM_AIRCRAFT false).indexOf MainAction.assertStop ∧
    (mainTrace NUM_AIRCRAFT false).indexOf MainAction.assertStop <
        (mainTrace NUM_AIRCRAFT false).indexOf MainAction.runConsumerDrain := by
  decide

/-- C6 counterexample: when opening the log fails, producer tasks HAVE
already been created — `asyncio.create_task` for every aircraft runs
before `ControlTower.__aenter__` opens the CSV file. -/
theorem spawn_happens_before_open_failure :
    MainAction.spawnProducer 1 ∈ mainTrace NUM_AIRCRAFT true := by
  decide

/-- C6 (amended): if the log cannot be opened, the run aborts before the
runtime sleep and before the consumer drain loop ever runs, but after
all producer tasks have been spawned (task creation precedes log
acquisition in `main`). -/
theorem open_failure_aborts_after_spawn_before_drain :
    (∀ i, i < NUM_AIRCRAFT →
      MainAction.spawnProducer (i + 1) ∈ mainTrace NUM_AIRCRAFT true) ∧
    MainAction.sleepRuntime ∉ mainTrace NUM_AIRCRAFT true ∧
    MainAction.runConsumerDrain ∉ mainTrace NUM_AIRCRAFT true := by
  decide

end AtmSim
